import Mathlib

/-!
Verification of the requirement model assembled by
`src/common/AndroidEnvironmentSetup.ts`.

The six requirement classes and the `AndroidEnvironmentSetup` composition
root are embedded as pure Lean functions.  Each asynchronous probe of
`AndroidUtils` and the `PlatformConfig` configuration are capabilities the
checks consume; they are made explicit parameters (`ProbeEnv`,
`AndroidConfig`).  A promise that resolves with a string is modelled as
`CheckResult.fulfilled`, a rejection carrying an `SfdxError` message as
`CheckResult.unfulfilled`.
-/

/-- A JavaScript error value as observed by the `catch` handlers: an optional
numeric `status` field plus a `message`. -/
structure JSError where
  status : Option Int
  message : String
deriving DecidableEq

/-- Result of `AndroidUtils.getAndroidSdkRoot`: a root source and location. -/
structure AndroidSdkRoot where
  rootSource : String
  rootLocation : String
deriving DecidableEq

/-- Package descriptor returned by the package-discovery probes, with the
fields the checks read. -/
structure AndroidPackage where
  platformAPI : String
  path : String
deriving DecidableEq

/-- The slice of `PlatformConfig.androidConfig()` the checks read. -/
structure AndroidConfig where
  minSupportedRuntime : String
  supportedImages : List String
deriving DecidableEq

/-- The `AndroidUtils` probe capabilities consumed by the six checks, as one
record of (already settled) probe outcomes. -/
structure ProbeEnv where
  getAndroidSdkRoot : Option AndroidSdkRoot
  androidSDKPrerequisitesCheck : Except JSError String
  fetchAndroidCmdLineToolsLocation : Except JSError String
  fetchAndroidSDKPlatformToolsLocation : Except JSError String
  getAndroidPlatformTools : String
  fetchSupportedAndroidAPIPackage : Option String → Except JSError AndroidPackage
  fetchSupportedEmulatorImagePackage : Option String → Except JSError AndroidPackage

/-- Settled outcome of one requirement check: the resolved (fulfilled)
message or the rejection (unfulfilled) message. -/
inductive CheckResult where
  | fulfilled (msg : String)
  | unfulfilled (msg : String)
deriving DecidableEq

/-- Arguments left over once a `util.format` template is consumed are
appended, each preceded by a space. -/
def formatExtras : List String → String
  | [] => ""
  | a :: as => " " ++ a ++ formatExtras as

/-- Core of `util.format`: each `%s` placeholder is replaced by the next
argument; arguments left over once the template is consumed are appended,
each preceded by a space; placeholders left over once the arguments are
consumed stay literal. -/
def formatSubst : List Char → List String → String
  | [], as => formatExtras as
  | '%' :: 's' :: cs, a :: as => a ++ formatSubst cs as
  | c :: cs, as => String.singleton c ++ formatSubst cs as

/-- `util.format` on a template and string arguments. -/
def formatString (template : String) (args : List String) : String :=
  formatSubst template.data args

/-- Modelled from the spec: `AndroidUtils.convertToUnixPath` is not under
`src/`; per the spec the fulfilled message is "normalized to unix path
separators", so backslash separators become forward slashes. -/
def convertToUnixPath (p : String) : String :=
  String.mk (p.data.map (fun c => if c = '\\' then '/' else c))

/-- The kind tag distinguishing the six requirement classes. -/
inductive RequirementKind where
  | sdkRoot
  | java8
  | cmdLineTools
  | platformTools
  | platformAPIPackage
  | emulatorImages
deriving DecidableEq

/-- One requirement object: its kind, the message-catalog key its title was
loaded from, the loaded title and message templates, the extra not-found
template (present only on the platform-tools requirement), the captured
`apiLevel` parameter, and the stored logger. -/
structure Requirement where
  kind : RequirementKind
  titleKey : String
  title : String
  fulfilledMessage : String
  unfulfilledMessage : String
  notFoundMessage : Option String
  apiLevel : Option String
  logger : Nat
deriving DecidableEq

/-- Constructor of `AndroidSDKRootSetRequirement`. -/
def AndroidSDKRootSetRequirement.ofMessages (messages : String → String) (logger : Nat) : Requirement :=
  { kind := RequirementKind.sdkRoot
    titleKey := "android:reqs:androidhome:title"
    title := messages "android:reqs:androidhome:title"
    fulfilledMessage := messages "android:reqs:androidhome:fulfilledMessage"
    unfulfilledMessage := messages "android:reqs:androidhome:unfulfilledMessage"
    notFoundMessage := none
    apiLevel := none
    logger := logger }

/-- Constructor of `Java8AvailableRequirement`. -/
def Java8AvailableRequirement.ofMessages (messages : String → String) (logger : Nat) : Requirement :=
  { kind := RequirementKind.java8
    titleKey := "android:reqs:androidsdkprerequisitescheck:title"
    title := messages "android:reqs:androidsdkprerequisitescheck:title"
    fulfilledMessage := messages "android:reqs:androidsdkprerequisitescheck:fulfilledMessage"
    unfulfilledMessage := messages "android:reqs:androidsdkprerequisitescheck:unfulfilledMessage"
    notFoundMessage := none
    apiLevel := none
    logger := logger }

/-- Constructor of `AndroidSDKToolsInstalledRequirement`. -/
def AndroidSDKToolsInstalledRequirement.ofMessages (messages : String → String) (logger : Nat) : Requirement :=
  { kind := RequirementKind.cmdLineTools
    titleKey := "android:reqs:cmdlinetools:title"
    title := messages "android:reqs:cmdlinetools:title"
    fulfilledMessage := messages "android:reqs:cmdlinetools:fulfilledMessage"
    unfulfilledMessage := messages "android:reqs:cmdlinetools:unfulfilledMessage"
    notFoundMessage := none
    apiLevel := none
    logger := logger }

/-- Constructor of `AndroidSDKPlatformToolsInstalledRequirement`. -/
def AndroidSDKPlatformToolsInstalledRequirement.ofMessages (messages : String → String) (logger : Nat) : Requirement :=
  { kind := RequirementKind.platformTools
    titleKey := "android:reqs:platformtools:title"
    title := messages "android:reqs:platformtools:title"
    fulfilledMessage := messages "android:reqs:platformtools:fulfilledMessage"
    unfulfilledMessage := messages "android:reqs:platformtools:unfulfilledMessage"
    notFoundMessage := some (messages "android:reqs:platformtools:notFound")
    apiLevel := none
    logger := logger }

/-- Constructor of `PlatformAPIPackageRequirement`. -/
def PlatformAPIPackageRequirement.ofMessages (messages : String → String) (logger : Nat) (apiLevel : Option String) : Requirement :=
  { kind := RequirementKind.platformAPIPackage
    titleKey := "android:reqs:platformapi:title"
    title := messages "android:reqs:platformapi:title"
    fulfilledMessage := messages "android:reqs:platformapi:fulfilledMessage"
    unfulfilledMessage := messages "android:reqs:platformapi:unfulfilledMessage"
    notFoundMessage := none
    apiLevel := apiLevel
    logger := logger }

/-- Constructor of `EmulatorImagesRequirement`. -/
def EmulatorImagesRequirement.ofMessages (messages : String → String) (logger : Nat) (apiLevel : Option String) : Requirement :=
  { kind := RequirementKind.emulatorImages
    titleKey := "android:reqs:emulatorimages:title"
    title := messages "android:reqs:emulatorimages:title"
    fulfilledMessage := messages "android:reqs:emulatorimages:fulfilledMessage"
    unfulfilledMessage := messages "android:reqs:emulatorimages:unfulfilledMessage"
    notFoundMessage := none
    apiLevel := apiLevel
    logger := logger }

/-- `AndroidSDKRootSetRequirement.checkFunction`. -/
def AndroidSDKRootSetRequirement.checkFunction (r : Requirement) (env : ProbeEnv) : CheckResult :=
  match env.getAndroidSdkRoot with
  | some root =>
      CheckResult.fulfilled
        (convertToUnixPath (formatString r.fulfilledMessage [root.rootSource, root.rootLocation]))
  | none => CheckResult.unfulfilled r.unfulfilledMessage

/-- `Java8AvailableRequirement.checkFunction`. -/
def Java8AvailableRequirement.checkFunction (r : Requirement) (env : ProbeEnv) : CheckResult :=
  match env.androidSDKPrerequisitesCheck with
  | Except.ok _ => CheckResult.fulfilled r.fulfilledMessage
  | Except.error e =>
      CheckResult.unfulfilled (formatString r.unfulfilledMessage [e.message])

/-- `AndroidSDKToolsInstalledRequirement.checkFunction`. -/
def AndroidSDKToolsInstalledRequirement.checkFunction (r : Requirement) (env : ProbeEnv) : CheckResult :=
  match env.fetchAndroidCmdLineToolsLocation with
  | Except.ok result =>
      CheckResult.fulfilled (convertToUnixPath (formatString r.fulfilledMessage [result]))
  | Except.error _ => CheckResult.unfulfilled r.unfulfilledMessage

/-- `AndroidSDKPlatformToolsInstalledRequirement.checkFunction`.  The
`notFoundMessage` field is always present on this requirement; `getD ""`
only totalizes the projection. -/
def AndroidSDKPlatformToolsInstalledRequirement.checkFunction (r : Requirement) (cfg : AndroidConfig) (env : ProbeEnv) : CheckResult :=
  match env.fetchAndroidSDKPlatformToolsLocation with
  | Except.ok result =>
      CheckResult.fulfilled (convertToUnixPath (formatString r.fulfilledMessage [result]))
  | Except.error e =>
      if e.status = some 127 then
        CheckResult.unfulfilled
          (formatString (r.notFoundMessage.getD "") [env.getAndroidPlatformTools])
      else
        CheckResult.unfulfilled
          (formatString r.unfulfilledMessage [cfg.minSupportedRuntime])

/-- The message `PlatformAPIPackageRequirement.checkFunction` builds from a
settled probe outcome. -/
def platformAPIOutcome (r : Requirement) (cfg : AndroidConfig) : Except JSError AndroidPackage → CheckResult
  | Except.ok result => CheckResult.fulfilled (formatString r.fulfilledMessage [result.platformAPI])
  | Except.error _ =>
      CheckResult.unfulfilled (formatString r.unfulfilledMessage [cfg.minSupportedRuntime])

/-- `PlatformAPIPackageRequirement.checkFunction`. -/
def PlatformAPIPackageRequirement.checkFunction (r : Requirement) (cfg : AndroidConfig) (env : ProbeEnv) : CheckResult :=
  match env.fetchSupportedAndroidAPIPackage r.apiLevel with
  | Except.ok result => CheckResult.fulfilled (formatString r.fulfilledMessage [result.platformAPI])
  | Except.error _ =>
      CheckResult.unfulfilled (formatString r.unfulfilledMessage [cfg.minSupportedRuntime])

/-- The message `EmulatorImagesRequirement.checkFunction` builds from a
settled probe outcome. -/
def emulatorImagesOutcome (r : Requirement) (cfg : AndroidConfig) : Except JSError AndroidPackage → CheckResult
  | Except.ok result => CheckResult.fulfilled (formatString r.fulfilledMessage [result.path])
  | Except.error _ =>
      CheckResult.unfulfilled
        (formatString r.unfulfilledMessage [String.intercalate "," cfg.supportedImages])

/-- `EmulatorImagesRequirement.checkFunction`. -/
def EmulatorImagesRequirement.checkFunction (r : Requirement) (cfg : AndroidConfig) (env : ProbeEnv) : CheckResult :=
  match env.fetchSupportedEmulatorImagePackage r.apiLevel with
  | Except.ok result => CheckResult.fulfilled (formatString r.fulfilledMessage [result.path])
  | Except.error _ =>
      CheckResult.unfulfilled
        (formatString r.unfulfilledMessage [String.intercalate "," cfg.supportedImages])

/-- Dispatch of `checkFunction` over the requirement's class. -/
def Requirement.check (r : Requirement) (cfg : AndroidConfig) (env : ProbeEnv) : CheckResult :=
  match r.kind with
  | RequirementKind.sdkRoot => AndroidSDKRootSetRequirement.checkFunction r env
  | RequirementKind.java8 => Java8AvailableRequirement.checkFunction r env
  | RequirementKind.cmdLineTools => AndroidSDKToolsInstalledRequirement.checkFunction r env
  | RequirementKind.platformTools => AndroidSDKPlatformToolsInstalledRequirement.checkFunction r cfg env
  | RequirementKind.platformAPIPackage => PlatformAPIPackageRequirement.checkFunction r cfg env
  | RequirementKind.emulatorImages => EmulatorImagesRequirement.checkFunction r cfg env

/-- Modelled from the spec: `BaseSetup.addBaseRequirements` lives in
`Requirements.ts`, which is not under `src/`; per the spec the catalog
starts empty for a fresh profile and `add` appends the given sequence. -/
def addBaseRequirements (catalog extra : List Requirement) : List Requirement :=
  catalog ++ extra

/-- The `AndroidEnvironmentSetup` constructor: assembles the six
requirements and registers them.  The ambient probe and configuration
capabilities are passed in so their non-use is expressible. -/
def AndroidEnvironmentSetup.construct (messages : String → String) (logger : Nat) (apiLevel : Option String) (env : ProbeEnv) (cfg : AndroidConfig) : List Requirement :=
  addBaseRequirements []
    [ AndroidSDKRootSetRequirement.ofMessages messages logger,
      Java8AvailableRequirement.ofMessages messages logger,
      AndroidSDKToolsInstalledRequirement.ofMessages messages logger,
      AndroidSDKPlatformToolsInstalledRequirement.ofMessages messages logger,
      PlatformAPIPackageRequirement.ofMessages messages logger apiLevel,
      EmulatorImagesRequirement.ofMessages messages logger apiLevel ]

/-- Sample configuration used by the closed witness statements. -/
def sampleCfg : AndroidConfig :=
  { minSupportedRuntime := "android-29"
    supportedImages := ["google_apis", "default", "google_apis_playstore"] }

/-- Probe environment in which every probe fails, the tool-location probes
with status 127. -/
def env127 : ProbeEnv :=
  { getAndroidSdkRoot := none
    androidSDKPrerequisitesCheck := Except.error ⟨none, "no jdk"⟩
    fetchAndroidCmdLineToolsLocation := Except.error ⟨some 127, "not found"⟩
    fetchAndroidSDKPlatformToolsLocation := Except.error ⟨some 127, "not found"⟩
    getAndroidPlatformTools := "platform-tools"
    fetchSupportedAndroidAPIPackage := fun _ => Except.error ⟨some 127, "not found"⟩
    fetchSupportedEmulatorImagePackage := fun _ => Except.error ⟨some 127, "not found"⟩ }

/-- Probe environment in which every probe fails with a status other
than 127. -/
def envOtherFailure : ProbeEnv :=
  { getAndroidSdkRoot := none
    androidSDKPrerequisitesCheck := Except.error ⟨some 1, "bad version"⟩
    fetchAndroidCmdLineToolsLocation := Except.error ⟨some 1, "bad version"⟩
    fetchAndroidSDKPlatformToolsLocation := Except.error ⟨some 1, "bad version"⟩
    getAndroidPlatformTools := "platform-tools"
    fetchSupportedAndroidAPIPackage := fun _ => Except.error ⟨some 1, "bad version"⟩
    fetchSupportedEmulatorImagePackage := fun _ => Except.error ⟨some 1, "bad version"⟩ }

/-- Probe environment in which every probe resolves. -/
def envOk : ProbeEnv :=
  { getAndroidSdkRoot := some ⟨"ANDROID_HOME", "C:\\Users\\dev\\sdk"⟩
    androidSDKPrerequisitesCheck := Except.ok "ok"
    fetchAndroidCmdLineToolsLocation := Except.ok "C:\\sdk\\cmdline-tools"
    fetchAndroidSDKPlatformToolsLocation := Except.ok "C:\\sdk\\platform-tools"
    getAndroidPlatformTools := "platform-tools"
    fetchSupportedAndroidAPIPackage := fun _ => Except.ok ⟨"30", "/sdk/platforms/android-30"⟩
    fetchSupportedEmulatorImagePackage := fun _ => Except.ok ⟨"30", "/sdk/system-images/android-30"⟩ }

/-- C1: in `AndroidSDKPlatformToolsInstalledRequirement.checkFunction`, a
probe failure with status 127 rejects with the not-found template formatted
with the platform-tools package name, a probe failure with any other status
rejects with the unfulfilled template formatted with the configured minimum
supported runtime, and a fulfilled message arises only from a resolved
probe. -/
theorem platformTools_status_selects_message
    (messages : String → String) (logger : Nat) (cfg : AndroidConfig) (env : ProbeEnv) :
    (∀ e : JSError, env.fetchAndroidSDKPlatformToolsLocation = Except.error e →
        e.status = some 127 →
        AndroidSDKPlatformToolsInstalledRequirement.checkFunction
            (AndroidSDKPlatformToolsInstalledRequirement.ofMessages messages logger) cfg env
          = CheckResult.unfulfilled
              (formatString (messages "android:reqs:platformtools:notFound")
                [env.getAndroidPlatformTools])) ∧
    (∀ e : JSError, env.fetchAndroidSDKPlatformToolsLocation = Except.error e →
        e.status ≠ some 127 →
        AndroidSDKPlatformToolsInstalledRequirement.checkFunction
            (AndroidSDKPlatformToolsInstalledRequirement.ofMessages messages logger) cfg env
          = CheckResult.unfulfilled
              (formatString (messages "android:reqs:platformtools:unfulfilledMessage")
                [cfg.minSupportedRuntime])) ∧
    (∀ s : String,
        AndroidSDKPlatformToolsInstalledRequirement.checkFunction
            (AndroidSDKPlatformToolsInstalledRequirement.ofMessages messages logger) cfg env
          = CheckResult.fulfilled s →
        ∃ p, env.fetchAndroidSDKPlatformToolsLocation = Except.ok p) := by
  refine ⟨?_, ?_, ?_⟩
  · intro e he h127
    simp [AndroidSDKPlatformToolsInstalledRequirement.checkFunction,
      AndroidSDKPlatformToolsInstalledRequirement.ofMessages, he, h127]
  · intro e he h127
    simp [AndroidSDKPlatformToolsInstalledRequirement.checkFunction,
      AndroidSDKPlatformToolsInstalledRequirement.ofMessages, he, h127]
  · intro s hs
    cases h : env.fetchAndroidSDKPlatformToolsLocation with
    | ok p => exact ⟨p, rfl⟩
    | error e =>
        rw [AndroidSDKPlatformToolsInstalledRequirement.checkFunction, h] at hs
        by_cases h127 : e.status = some 127 <;> simp [h127] at hs

/-- C1 witness: at a concrete environment whose tool-location probe fails
with status 127, the rejection carries the formatted not-found message. -/
theorem platformTools_status_selects_message_witness :
    AndroidSDKPlatformToolsInstalledRequirement.checkFunction
        (AndroidSDKPlatformToolsInstalledRequirement.ofMessages (fun k => k) 0) sampleCfg env127
      = CheckResult.unfulfilled
          (formatString "android:reqs:platformtools:notFound" ["platform-tools"]) :=
  (platformTools_status_selects_message (fun k => k) 0 sampleCfg env127).1
    ⟨some 127, "not found"⟩ rfl rfl

/-- C10: `AndroidSDKToolsInstalledRequirement.checkFunction` collapses every
probe failure, whatever its contents or status (127 included), into the
unfulfilled template verbatim, with no substitution; any two failing probe
environments yield the same rejection. -/
theorem cmdLineTools_collapses_all_failures
    (messages : String → String) (logger : Nat) (env₁ env₂ : ProbeEnv) :
    (∀ e : JSError, env₁.fetchAndroidCmdLineToolsLocation = Except.error e →
        AndroidSDKToolsInstalledRequirement.checkFunction
            (AndroidSDKToolsInstalledRequirement.ofMessages messages logger) env₁
          = CheckResult.unfulfilled (messages "android:reqs:cmdlinetools:unfulfilledMessage")) ∧
    (∀ e₁ e₂ : JSError,
        env₁.fetchAndroidCmdLineToolsLocation = Except.error e₁ →
        env₂.fetchAndroidCmdLineToolsLocation = Except.error e₂ →
        AndroidSDKToolsInstalledRequirement.checkFunction
            (AndroidSDKToolsInstalledRequirement.ofMessages messages logger) env₁
          = AndroidSDKToolsInstalledRequirement.checkFunction
              (AndroidSDKToolsInstalledRequirement.ofMessages messages logger) env₂) := by
  refine ⟨?_, ?_⟩
  · intro e he
    simp [AndroidSDKToolsInstalledRequirement.checkFunction,
      AndroidSDKToolsInstalledRequirement.ofMessages, he]
  · intro e₁ e₂ he₁ he₂
    simp [AndroidSDKToolsInstalledRequirement.checkFunction,
      AndroidSDKToolsInstalledRequirement.ofMessages, he₁, he₂]

/-- C10 witness: a status-127 failure and a status-1 failure of the
command-line-tools probe both reject with the bare unfulfilled template. -/
theorem cmdLineTools_collapses_all_failures_witness :
    AndroidSDKToolsInstalledRequirement.checkFunction
        (AndroidSDKToolsInstalledRequirement.ofMessages (fun k => k) 0) env127
      = AndroidSDKToolsInstalledRequirement.checkFunction
          (AndroidSDKToolsInstalledRequirement.ofMessages (fun k => k) 0) envOtherFailure :=
  (cmdLineTools_collapses_all_failures (fun k => k) 0 env127 envOtherFailure).2
    ⟨some 127, "not found"⟩ ⟨some 1, "bad version"⟩ rfl rfl

/-- C3: `EmulatorImagesRequirement.checkFunction` rejects every probe
failure with the unfulfilled template formatted with the configured
supported images joined by a comma in order, and a resolved probe fulfills
with the fulfilled template formatted with the descriptor's path. -/
theorem emulatorImages_message_selection
    (messages : String → String) (logger : Nat) (apiLevel : Option String)
    (cfg : AndroidConfig) (env : ProbeEnv) :
    (∀ e : JSError, env.fetchSupportedEmulatorImagePackage apiLevel = Except.error e →
        EmulatorImagesRequirement.checkFunction
            (EmulatorImagesRequirement.ofMessages messages logger apiLevel) cfg env
          = CheckResult.unfulfilled
              (formatString (messages "android:reqs:emulatorimages:unfulfilledMessage")
                [String.intercalate "," cfg.supportedImages])) ∧
    (∀ d : AndroidPackage, env.fetchSupportedEmulatorImagePackage apiLevel = Except.ok d →
        EmulatorImagesRequirement.checkFunction
            (EmulatorImagesRequirement.ofMessages messages logger apiLevel) cfg env
          = CheckResult.fulfilled
              (formatString (messages "android:reqs:emulatorimages:fulfilledMessage") [d.path])) := by
  refine ⟨?_, ?_⟩
  · intro e he
    simp [EmulatorImagesRequirement.checkFunction, EmulatorImagesRequirement.ofMessages, he]
  · intro d hd
    simp [EmulatorImagesRequirement.checkFunction, EmulatorImagesRequirement.ofMessages, hd]

/-- C3 witness: with a failing discovery probe, the rejection lists the
three configured images comma-joined in order. -/
theorem emulatorImages_message_selection_witness :
    EmulatorImagesRequirement.checkFunction
        (EmulatorImagesRequirement.ofMessages (fun k => k) 0 none) sampleCfg envOtherFailure
      = CheckResult.unfulfilled
          (formatString "android:reqs:emulatorimages:unfulfilledMessage"
            ["google_apis,default,google_apis_playstore"]) :=
  (emulatorImages_message_selection (fun k => k) 0 none sampleCfg envOtherFailure).1
    ⟨some 1, "bad version"⟩ rfl

/-- C4: `PlatformAPIPackageRequirement.checkFunction` fulfills a resolved
probe with the fulfilled template formatted with the descriptor's
`platformAPI`, and rejects a failing probe with the unfulfilled template
formatted with the configured minimum supported runtime. -/
theorem platformAPI_message_selection
    (messages : String → String) (logger : Nat) (apiLevel : Option String)
    (cfg : AndroidConfig) (env : ProbeEnv) :
    (∀ d : AndroidPackage, env.fetchSupportedAndroidAPIPackage apiLevel = Except.ok d →
        PlatformAPIPackageRequirement.checkFunction
            (PlatformAPIPackageRequirement.ofMessages messages logger apiLevel) cfg env
          = CheckResult.fulfilled
              (formatString (messages "android:reqs:platformapi:fulfilledMessage")
                [d.platformAPI])) ∧
    (∀ e : JSError, env.fetchSupportedAndroidAPIPackage apiLevel = Except.error e →
        PlatformAPIPackageRequirement.checkFunction
            (PlatformAPIPackageRequirement.ofMessages messages logger apiLevel) cfg env
          = CheckResult.unfulfilled
              (formatString (messages "android:reqs:platformapi:unfulfilledMessage")
                [cfg.minSupportedRuntime])) := by
  refine ⟨?_, ?_⟩
  · intro d hd
    simp [PlatformAPIPackageRequirement.checkFunction, PlatformAPIPackageRequirement.ofMessages, hd]
  · intro e he
    simp [PlatformAPIPackageRequirement.checkFunction, PlatformAPIPackageRequirement.ofMessages, he]

/-- C4 witness: a discovered `platformAPI` of "30" under the template
"Installed %s" fulfills with "Installed 30", a message containing "30". -/
theorem platformAPI_message_selection_witness :
    PlatformAPIPackageRequirement.checkFunction
        (PlatformAPIPackageRequirement.ofMessages (fun _ => "Installed %s") 0 (some "30"))
        sampleCfg envOk
      = CheckResult.fulfilled "Installed 30" := by
  have h := (platformAPI_message_selection (fun _ => "Installed %s") 0 (some "30") sampleCfg envOk).1
    ⟨"30", "/sdk/platforms/android-30"⟩ rfl
  rw [h]
  decide

/-- C5: `AndroidSDKRootSetRequirement.checkFunction` fulfills exactly when
the path-resolution capability returns a value: on presence it resolves
with the fulfilled template formatted with the root's source and location
and normalized to unix separators, and on absence it rejects with the
unfulfilled template unchanged. -/
theorem sdkRoot_fulfills_iff_root_present
    (messages : String → String) (logger : Nat) (env : ProbeEnv) :
    (∀ root : AndroidSdkRoot, env.getAndroidSdkRoot = some root →
        AndroidSDKRootSetRequirement.checkFunction
            (AndroidSDKRootSetRequirement.ofMessages messages logger) env
          = CheckResult.fulfilled
              (convertToUnixPath
                (formatString (messages "android:reqs:androidhome:fulfilledMessage")
                  [root.rootSource, root.rootLocation]))) ∧
    (env.getAndroidSdkRoot = none →
        AndroidSDKRootSetRequirement.checkFunction
            (AndroidSDKRootSetRequirement.ofMessages messages logger) env
          = CheckResult.unfulfilled (messages "android:reqs:androidhome:unfulfilledMessage")) ∧
    ((∃ s, AndroidSDKRootSetRequirement.checkFunction
            (AndroidSDKRootSetRequirement.ofMessages messages logger) env
          = CheckResult.fulfilled s) ↔ env.getAndroidSdkRoot.isSome) := by
  refine ⟨?_, ?_, ?_⟩
  · intro root hroot
    simp [AndroidSDKRootSetRequirement.checkFunction, AndroidSDKRootSetRequirement.ofMessages, hroot]
  · intro hnone
    simp [AndroidSDKRootSetRequirement.checkFunction, AndroidSDKRootSetRequirement.ofMessages, hnone]
  · cases h : env.getAndroidSdkRoot with
    | none =>
        simp [AndroidSDKRootSetRequirement.checkFunction, h]
    | some root =>
        simp [AndroidSDKRootSetRequirement.checkFunction, h]

/-- C5 witness: with the root resolved from ANDROID_HOME at a
backslash-separated location and the template "found %s at %s", the check
fulfills with the normalized message. -/
theorem sdkRoot_fulfills_iff_root_present_witness :
    AndroidSDKRootSetRequirement.checkFunction
        (AndroidSDKRootSetRequirement.ofMessages (fun _ => "found %s at %s") 0) envOk
      = CheckResult.fulfilled "found ANDROID_HOME at C:/Users/dev/sdk" := by
  have h := (sdkRoot_fulfills_iff_root_present (fun _ => "found %s at %s") 0 envOk).1
    ⟨"ANDROID_HOME", "C:\\Users\\dev\\sdk"⟩ rfl
  rw [h]
  decide

/-- A second sample configuration, differing from `sampleCfg` in both
fields. -/
def sampleCfg2 : AndroidConfig :=
  { minSupportedRuntime := "android-23"
    supportedImages := ["default"] }

/-- C6: across every requirement the catalog assembles, the fulfilled
verdict and the fulfilled message do not depend on the configuration
values `minSupportedRuntime` and `supportedImages`: for any probe outcome
the check fulfills with message `s` under one configuration exactly when
it does under any other. -/
theorem fulfilled_independent_of_config
    (messages : String → String) (logger : Nat) (apiLevel : Option String)
    (env : ProbeEnv) (cfg₁ cfg₂ : AndroidConfig) :
    ∀ r ∈ AndroidEnvironmentSetup.construct messages logger apiLevel env cfg₁,
      ∀ s : String,
        (Requirement.check r cfg₁ env = CheckResult.fulfilled s ↔
          Requirement.check r cfg₂ env = CheckResult.fulfilled s) := by
  intro r hr s
  simp only [AndroidEnvironmentSetup.construct, addBaseRequirements, List.nil_append,
    List.mem_cons, List.not_mem_nil, or_false] at hr
  rcases hr with rfl | rfl | rfl | rfl | rfl | rfl
  · simp [Requirement.check, AndroidSDKRootSetRequirement.ofMessages]
  · simp [Requirement.check, Java8AvailableRequirement.ofMessages]
  · simp [Requirement.check, AndroidSDKToolsInstalledRequirement.ofMessages]
  · cases h : env.fetchAndroidSDKPlatformToolsLocation with
    | ok p =>
        simp [Requirement.check, AndroidSDKPlatformToolsInstalledRequirement.checkFunction,
          AndroidSDKPlatformToolsInstalledRequirement.ofMessages, h]
    | error e =>
        by_cases h127 : e.status = some 127 <;>
          simp [Requirement.check, AndroidSDKPlatformToolsInstalledRequirement.checkFunction,
            AndroidSDKPlatformToolsInstalledRequirement.ofMessages, h, h127]
  · cases h : env.fetchSupportedAndroidAPIPackage apiLevel with
    | ok d =>
        simp [Requirement.check, PlatformAPIPackageRequirement.checkFunction,
          PlatformAPIPackageRequirement.ofMessages, h]
    | error e =>
        simp [Requirement.check, PlatformAPIPackageRequirement.checkFunction,
          PlatformAPIPackageRequirement.ofMessages, h]
  · cases h : env.fetchSupportedEmulatorImagePackage apiLevel with
    | ok d =>
        simp [Requirement.check, EmulatorImagesRequirement.checkFunction,
          EmulatorImagesRequirement.ofMessages, h]
    | error e =>
        simp [Requirement.check, EmulatorImagesRequirement.checkFunction,
          EmulatorImagesRequirement.ofMessages, h]

/-- C6 witness: for the platform-API requirement with a resolving probe,
the fulfilled result is the same under two different configurations. -/
theorem fulfilled_independent_of_config_witness :
    Requirement.check (PlatformAPIPackageRequirement.ofMessages (fun k => k) 0 none)
        sampleCfg envOk
      = CheckResult.fulfilled (formatString "android:reqs:platformapi:fulfilledMessage" ["30"]) ↔
    Requirement.check (PlatformAPIPackageRequirement.ofMessages (fun k => k) 0 none)
        sampleCfg2 envOk
      = CheckResult.fulfilled (formatString "android:reqs:platformapi:fulfilledMessage" ["30"]) :=
  fulfilled_independent_of_config (fun k => k) 0 none envOk sampleCfg sampleCfg2
    (PlatformAPIPackageRequirement.ofMessages (fun k => k) 0 none)
    (by simp [AndroidEnvironmentSetup.construct, addBaseRequirements])
    (formatString "android:reqs:platformapi:fulfilledMessage" ["30"])

/-- C7: the `apiLevel` constructor parameter reaches only the platform-API
and emulator-images requirements: the first four catalog entries and their
check results are identical across runs differing only in `apiLevel`; the
captured `apiLevel` fields are absent on the first four entries and equal
to the parameter on the last two; and each of the two package checks
forwards its captured `apiLevel` (absent when unset) to its discovery
probe. -/
theorem apiLevel_flows_only_to_package_requirements
    (messages : String → String) (logger : Nat) (cfg : AndroidConfig) (env : ProbeEnv)
    (a₁ a₂ : Option String) :
    ((AndroidEnvironmentSetup.construct messages logger a₁ env cfg).take 4
       = (AndroidEnvironmentSetup.construct messages logger a₂ env cfg).take 4)
    ∧ (((AndroidEnvironmentSetup.construct messages logger a₁ env cfg).take 4).map
          (fun r => Requirement.check r cfg env)
       = ((AndroidEnvironmentSetup.construct messages logger a₂ env cfg).take 4).map
          (fun r => Requirement.check r cfg env))
    ∧ ((AndroidEnvironmentSetup.construct messages logger a₁ env cfg).map Requirement.apiLevel
       = [none, none, none, none, a₁, a₁])
    ∧ (PlatformAPIPackageRequirement.checkFunction
          (PlatformAPIPackageRequirement.ofMessages messages logger a₁) cfg env
       = platformAPIOutcome (PlatformAPIPackageRequirement.ofMessages messages logger a₁) cfg
           (env.fetchSupportedAndroidAPIPackage a₁))
    ∧ (EmulatorImagesRequirement.checkFunction
          (EmulatorImagesRequirement.ofMessages messages logger a₁) cfg env
       = emulatorImagesOutcome (EmulatorImagesRequirement.ofMessages messages logger a₁) cfg
           (env.fetchSupportedEmulatorImagePackage a₁)) := by
  refine ⟨rfl, rfl, ?_, ?_, ?_⟩
  · simp [AndroidEnvironmentSetup.construct, addBaseRequirements,
      AndroidSDKRootSetRequirement.ofMessages, Java8AvailableRequirement.ofMessages,
      AndroidSDKToolsInstalledRequirement.ofMessages,
      AndroidSDKPlatformToolsInstalledRequirement.ofMessages,
      PlatformAPIPackageRequirement.ofMessages, EmulatorImagesRequirement.ofMessages]
  · cases h : env.fetchSupportedAndroidAPIPackage a₁ with
    | ok d =>
        simp [PlatformAPIPackageRequirement.checkFunction,
          PlatformAPIPackageRequirement.ofMessages, platformAPIOutcome, h]
    | error e =>
        simp [PlatformAPIPackageRequirement.checkFunction,
          PlatformAPIPackageRequirement.ofMessages, platformAPIOutcome, h]
  · cases h : env.fetchSupportedEmulatorImagePackage a₁ with
    | ok d =>
        simp [EmulatorImagesRequirement.checkFunction,
          EmulatorImagesRequirement.ofMessages, emulatorImagesOutcome, h]
    | error e =>
        simp [EmulatorImagesRequirement.checkFunction,
          EmulatorImagesRequirement.ofMessages, emulatorImagesOutcome, h]

/-- The failure mode of the probe a given requirement consumes: the probe
relevant to the requirement's class has failed (for the path-resolution
probe, returned the absence signal). -/
def relevantProbeFailed (r : Requirement) (env : ProbeEnv) : Prop :=
  match r.kind with
  | RequirementKind.sdkRoot => env.getAndroidSdkRoot = none
  | RequirementKind.java8 => ∃ e, env.androidSDKPrerequisitesCheck = Except.error e
  | RequirementKind.cmdLineTools => ∃ e, env.fetchAndroidCmdLineToolsLocation = Except.error e
  | RequirementKind.platformTools =>
      ∃ e, env.fetchAndroidSDKPlatformToolsLocation = Except.error e
  | RequirementKind.platformAPIPackage =>
      ∃ e, env.fetchSupportedAndroidAPIPackage r.apiLevel = Except.error e
  | RequirementKind.emulatorImages =>
      ∃ e, env.fetchSupportedEmulatorImagePackage r.apiLevel = Except.error e

/-- C2: every requirement the catalog assembles settles on every probe
outcome — the check always produces a fulfilled or an unfulfilled result —
and every expected probe failure is signaled through the unfulfilled
outcome, never through any other control path. -/
theorem checks_settle_without_throwing
    (messages : String → String) (logger : Nat) (apiLevel : Option String)
    (cfg : AndroidConfig) (env : ProbeEnv) :
    ∀ r ∈ AndroidEnvironmentSetup.construct messages logger apiLevel env cfg,
      ((∃ s, Requirement.check r cfg env = CheckResult.unfulfilled s) ∨
        (∃ s, Requirement.check r cfg env = CheckResult.fulfilled s)) ∧
      (relevantProbeFailed r env →
        ∃ s, Requirement.check r cfg env = CheckResult.unfulfilled s) := by
  intro r hr
  constructor
  · cases h : Requirement.check r cfg env with
    | fulfilled s => exact Or.inr ⟨s, rfl⟩
    | unfulfilled s => exact Or.inl ⟨s, rfl⟩
  · intro hfail
    simp only [AndroidEnvironmentSetup.construct, addBaseRequirements, List.nil_append,
      List.mem_cons, List.not_mem_nil, or_false] at hr
    rcases hr with rfl | rfl | rfl | rfl | rfl | rfl
    · simp only [relevantProbeFailed, AndroidSDKRootSetRequirement.ofMessages] at hfail
      exact ⟨messages "android:reqs:androidhome:unfulfilledMessage",
        by simp [Requirement.check, AndroidSDKRootSetRequirement.checkFunction,
          AndroidSDKRootSetRequirement.ofMessages, hfail]⟩
    · simp only [relevantProbeFailed, Java8AvailableRequirement.ofMessages] at hfail
      obtain ⟨e, he⟩ := hfail
      exact ⟨formatString (messages "android:reqs:androidsdkprerequisitescheck:unfulfilledMessage")
          [e.message],
        by simp [Requirement.check, Java8AvailableRequirement.checkFunction,
          Java8AvailableRequirement.ofMessages, he]⟩
    · simp only [relevantProbeFailed, AndroidSDKToolsInstalledRequirement.ofMessages] at hfail
      obtain ⟨e, he⟩ := hfail
      exact ⟨messages "android:reqs:cmdlinetools:unfulfilledMessage",
        by simp [Requirement.check, AndroidSDKToolsInstalledRequirement.checkFunction,
          AndroidSDKToolsInstalledRequirement.ofMessages, he]⟩
    · simp only [relevantProbeFailed,
        AndroidSDKPlatformToolsInstalledRequirement.ofMessages] at hfail
      obtain ⟨e, he⟩ := hfail
      by_cases h127 : e.status = some 127
      · exact ⟨formatString (messages "android:reqs:platformtools:notFound")
            [env.getAndroidPlatformTools],
          by simp [Requirement.check, AndroidSDKPlatformToolsInstalledRequirement.checkFunction,
            AndroidSDKPlatformToolsInstalledRequirement.ofMessages, he, h127]⟩
      · exact ⟨formatString (messages "android:reqs:platformtools:unfulfilledMessage")
            [cfg.minSupportedRuntime],
          by simp [Requirement.check, AndroidSDKPlatformToolsInstalledRequirement.checkFunction,
            AndroidSDKPlatformToolsInstalledRequirement.ofMessages, he, h127]⟩
    · simp only [relevantProbeFailed, PlatformAPIPackageRequirement.ofMessages] at hfail
      obtain ⟨e, he⟩ := hfail
      exact ⟨formatString (messages "android:reqs:platformapi:unfulfilledMessage")
          [cfg.minSupportedRuntime],
        by simp [Requirement.check, PlatformAPIPackageRequirement.checkFunction,
          PlatformAPIPackageRequirement.ofMessages, he]⟩
    · simp only [relevantProbeFailed, EmulatorImagesRequirement.ofMessages] at hfail
      obtain ⟨e, he⟩ := hfail
      exact ⟨formatString (messages "android:reqs:emulatorimages:unfulfilledMessage")
          [String.intercalate "," cfg.supportedImages],
        by simp [Requirement.check, EmulatorImagesRequirement.checkFunction,
          EmulatorImagesRequirement.ofMessages, he]⟩

/-- C2 witness: with the path-resolution probe absent, the SDK-root
requirement settles with an unfulfilled outcome. -/
theorem checks_settle_without_throwing_witness :
    ∃ s, Requirement.check (AndroidSDKRootSetRequirement.ofMessages (fun k => k) 0)
        sampleCfg envOtherFailure = CheckResult.unfulfilled s :=
  (checks_settle_without_throwing (fun k => k) 0 none sampleCfg envOtherFailure
      (AndroidSDKRootSetRequirement.ofMessages (fun k => k) 0)
      (by simp [AndroidEnvironmentSetup.construct, addBaseRequirements])).2
    (by simp [relevantProbeFailed, AndroidSDKRootSetRequirement.ofMessages, envOtherFailure])

/-- The six message-catalog keys the requirement titles are loaded from, in
catalog order. -/
def requirementTitleKeys : List String :=
  [ "android:reqs:androidhome:title",
    "android:reqs:androidsdkprerequisitescheck:title",
    "android:reqs:cmdlinetools:title",
    "android:reqs:platformtools:title",
    "android:reqs:platformapi:title",
    "android:reqs:emulatorimages:title" ]

/-- C8: the assembled catalog is non-empty — exactly six requirements, in
the fixed order SDK-root, Java-8-prerequisites, command-line-tools,
platform-tools, platform-API package, emulator-images — its titles are
loaded from six pairwise-distinct message-catalog keys, and whenever the
message catalog tells those six keys apart the six titles are pairwise
distinct. -/
theorem catalog_is_six_ordered_distinct
    (messages : String → String) (logger : Nat) (apiLevel : Option String)
    (env : ProbeEnv) (cfg : AndroidConfig) :
    ((AndroidEnvironmentSetup.construct messages logger apiLevel env cfg).length = 6)
    ∧ ((AndroidEnvironmentSetup.construct messages logger apiLevel env cfg).map Requirement.kind
        = [RequirementKind.sdkRoot, RequirementKind.java8, RequirementKind.cmdLineTools,
            RequirementKind.platformTools, RequirementKind.platformAPIPackage,
            RequirementKind.emulatorImages])
    ∧ ((AndroidEnvironmentSetup.construct messages logger apiLevel env cfg).map
          Requirement.titleKey = requirementTitleKeys)
    ∧ requirementTitleKeys.Nodup
    ∧ ((∀ k₁ ∈ requirementTitleKeys, ∀ k₂ ∈ requirementTitleKeys,
          messages k₁ = messages k₂ → k₁ = k₂) →
        ((AndroidEnvironmentSetup.construct messages logger apiLevel env cfg).map
            Requirement.title).Nodup) := by
  refine ⟨rfl, rfl, rfl, by decide, ?_⟩
  intro hinj
  have hmap : (AndroidEnvironmentSetup.construct messages logger apiLevel env cfg).map
      Requirement.title = requirementTitleKeys.map messages := rfl
  rw [hmap]
  exact List.Nodup.map_on hinj (by decide)

/-- C8 witness: with the identity message catalog (injective on the keys),
the six titles are pairwise distinct. -/
theorem catalog_is_six_ordered_distinct_witness :
    ((AndroidEnvironmentSetup.construct (fun k => k) 0 none envOk sampleCfg).map
        Requirement.title).Nodup :=
  (catalog_is_six_ordered_distinct (fun k => k) 0 none envOk sampleCfg).2.2.2.2
    (fun _ _ _ _ h => h)

/-- Every message-catalog key read while constructing the six
requirements: each title key together with the message-template keys. -/
def messageKeysUsed : List String :=
  [ "android:reqs:androidhome:title",
    "android:reqs:androidhome:fulfilledMessage",
    "android:reqs:androidhome:unfulfilledMessage",
    "android:reqs:androidsdkprerequisitescheck:title",
    "android:reqs:androidsdkprerequisitescheck:fulfilledMessage",
    "android:reqs:androidsdkprerequisitescheck:unfulfilledMessage",
    "android:reqs:cmdlinetools:title",
    "android:reqs:cmdlinetools:fulfilledMessage",
    "android:reqs:cmdlinetools:unfulfilledMessage",
    "android:reqs:platformtools:title",
    "android:reqs:platformtools:fulfilledMessage",
    "android:reqs:platformtools:unfulfilledMessage",
    "android:reqs:platformtools:notFound",
    "android:reqs:platformapi:title",
    "android:reqs:platformapi:fulfilledMessage",
    "android:reqs:platformapi:unfulfilledMessage",
    "android:reqs:emulatorimages:title",
    "android:reqs:emulatorimages:fulfilledMessage",
    "android:reqs:emulatorimages:unfulfilledMessage" ]

/-- C9: construction is pure assembly — the constructed catalog is fully
determined by the message catalog's values at the keys it reads (and the
logger and apiLevel arguments); no probe capability and no configuration
value influences it, so no check runs at construction time. -/
theorem construction_is_pure_assembly
    (m₁ m₂ : String → String) (logger : Nat) (apiLevel : Option String)
    (env₁ env₂ : ProbeEnv) (cfg₁ cfg₂ : AndroidConfig) :
    (∀ k ∈ messageKeysUsed, m₁ k = m₂ k) →
    AndroidEnvironmentSetup.construct m₁ logger apiLevel env₁ cfg₁
      = AndroidEnvironmentSetup.construct m₂ logger apiLevel env₂ cfg₂ := by
  intro h
  have h₁ := h "android:reqs:androidhome:title" (by decide)
  have h₂ := h "android:reqs:androidhome:fulfilledMessage" (by decide)
  have h₃ := h "android:reqs:androidhome:unfulfilledMessage" (by decide)
  have h₄ := h "android:reqs:androidsdkprerequisitescheck:title" (by decide)
  have h₅ := h "android:reqs:androidsdkprerequisitescheck:fulfilledMessage" (by decide)
  have h₆ := h "android:reqs:androidsdkprerequisitescheck:unfulfilledMessage" (by decide)
  have h₇ := h "android:reqs:cmdlinetools:title" (by decide)
  have h₈ := h "android:reqs:cmdlinetools:fulfilledMessage" (by decide)
  have h₉ := h "android:reqs:cmdlinetools:unfulfilledMessage" (by decide)
  have h₁₀ := h "android:reqs:platformtools:title" (by decide)
  have h₁₁ := h "android:reqs:platformtools:fulfilledMessage" (by decide)
  have h₁₂ := h "android:reqs:platformtools:unfulfilledMessage" (by decide)
  have h₁₃ := h "android:reqs:platformtools:notFound" (by decide)
  have h₁₄ := h "android:reqs:platformapi:title" (by decide)
  have h₁₅ := h "android:reqs:platformapi:fulfilledMessage" (by decide)
  have h₁₆ := h "android:reqs:platformapi:unfulfilledMessage" (by decide)
  have h₁₇ := h "android:reqs:emulatorimages:title" (by decide)
  have h₁₈ := h "android:reqs:emulatorimages:fulfilledMessage" (by decide)
  have h₁₉ := h "android:reqs:emulatorimages:unfulfilledMessage" (by decide)
  simp [AndroidEnvironmentSetup.construct, addBaseRequirements,
    AndroidSDKRootSetRequirement.ofMessages, Java8AvailableRequirement.ofMessages,
    AndroidSDKToolsInstalledRequirement.ofMessages,
    AndroidSDKPlatformToolsInstalledRequirement.ofMessages,
    PlatformAPIPackageRequirement.ofMessages, EmulatorImagesRequirement.ofMessages,
    h₁, h₂, h₃, h₄, h₅, h₆, h₇, h₈, h₉, h₁₀, h₁₁, h₁₂, h₁₃, h₁₄, h₁₅, h₁₆, h₁₇, h₁₈, h₁₉]

/-- C9 witness: with the same message catalog, construction under an
all-failing probe environment and one configuration equals construction
under an all-resolving environment and another configuration. -/
theorem construction_is_pure_assembly_witness :
    AndroidEnvironmentSetup.construct (fun k => k) 0 none env127 sampleCfg
      = AndroidEnvironmentSetup.construct (fun k => k) 0 none envOk sampleCfg2 :=
  construction_is_pure_assembly (fun k => k) (fun k => k) 0 none env127 envOk
    sampleCfg sampleCfg2 (fun _ _ => rfl)
